import Mathlib

/-!
Shallow embedding of the plex-mcp-server repository (TypeScript).

The embedding models:
  * the dynamic ("any"-typed) Plex items as a record of optional fields
    (`RawItem`), with the nested `Media` technical-profile entries
    (`MediaEntry`);
  * the reshaping performed by the tool handlers in
    `src/plex-mcp-server-ts.ts` (`reshapeItem`, `normalizeItemMedia`, the
    per-tool handlers);
  * the `PlexClient` operations that contain in-repo logic
    (`getMovies`, `playMedia`), parameterized over the network effects
    they perform;
  * the `MockPlexClient` fixtures and its pagination / filter logic;
  * the Express `/messages` endpoint guard over the single SSE transport
    reference.

JavaScript numbers that appear in the fixtures are embedded as `Int`
(years, durations, counts) and `Rat` (ratings such as 8.7); none of these
values is ever computed with, only copied.  `JSON.stringify` serialization
is abstracted away: handler success payloads are kept structured, and a
failure is the rendered error text.  Lean functions are total, which models
the spec's "never an uncaught exception" at the handler boundary.
-/

namespace Plex

/-- One entry of an item's `Media` array.  In the source it is an untyped
object; the handlers only ever read/write its `optimizedForStreaming`
field and spread the remaining fields verbatim, which we carry in `rest`. -/
structure MediaEntry where
  optimizedForStreaming : Option Int := none
  rest : List (String × String) := []
deriving DecidableEq, Repr

/-- A raw Plex item as returned by the client layer (the source types these
as `any`; the fields below are the ones the repository reads). -/
structure RawItem where
  ratingKey : String
  title : String
  year : Option Int := none
  type : String
  duration : Option Int := none
  rating : Option Rat := none
  summary : Option String := none
  childCount : Option Int := none
  index : Option Int := none
  parentIndex : Option Int := none
  leafCount : Option Int := none
  Media : Option (List MediaEntry) := none
  originallyAvailableAt : Option String := none
deriving DecidableEq, Repr

/-- A library directory entry (`lib.key`, `lib.title`, `lib.type`). -/
structure Library where
  key : String
  title : String
  type : String
deriving DecidableEq, Repr

/-- The `{ items, totalSize }` pair returned by `getLibraryContents`. -/
structure ContentsResult where
  items : List RawItem
  totalSize : Nat
deriving DecidableEq, Repr

/-- Result of the per-item reshaping in the `get-library-contents` and
`get-watchlist` handlers: a base projection, extended with movie fields
when `item.type === 'movie'` and show fields when `item.type === 'show'`.
Each constructor records exactly the keys the produced object carries. -/
inductive ShapedItem where
  | movieInfo (id : String) (title : String) (year : Option Int)
      (duration : Option Int) (rating : Option Rat) (summary : Option String)
  | showInfo (id : String) (title : String) (year : Option Int)
      (seasons : Option Int) (summary : Option String)
  | baseInfo (id : String) (title : String) (year : Option Int) (type : String)
deriving DecidableEq, Repr

/-- The `id` field of a reshaped item (always present). -/
def ShapedItem.id : ShapedItem → String
  | .movieInfo i _ _ _ _ _ => i
  | .showInfo i _ _ _ _ => i
  | .baseInfo i _ _ _ => i

/-- The `title` field of a reshaped item (always present). -/
def ShapedItem.title : ShapedItem → String
  | .movieInfo _ t _ _ _ _ => t
  | .showInfo _ t _ _ _ => t
  | .baseInfo _ t _ _ => t

/-- The `year` field of a reshaped item (always present). -/
def ShapedItem.year : ShapedItem → Option Int
  | .movieInfo _ _ y _ _ _ => y
  | .showInfo _ _ y _ _ => y
  | .baseInfo _ _ y _ => y

/-- Whether the reshaped object carries the movie-specific keys
(`duration`, `rating`, `summary`). -/
def ShapedItem.hasMovieFields : ShapedItem → Bool
  | .movieInfo _ _ _ _ _ _ => true
  | _ => false

/-- Whether the reshaped object carries the show-specific keys
(`seasons`, `summary`). -/
def ShapedItem.hasShowFields : ShapedItem → Bool
  | .showInfo _ _ _ _ _ => true
  | _ => false

/-- Embeds the item-reshaping closure of the `get-library-contents`
handler (`plex-mcp-server-ts.ts` lines 119-143); the `get-watchlist`
handler (lines 398-422) repeats the same code verbatim, so both are
embedded by this single definition. -/
def reshapeItem (item : RawItem) : ShapedItem :=
  if item.type = "movie" then
    .movieInfo item.ratingKey item.title item.year
      item.duration item.rating item.summary
  else if item.type = "show" then
    .showInfo item.ratingKey item.title item.year
      item.childCount item.summary
  else
    .baseInfo item.ratingKey item.title item.year item.type

/-- The defaulting applied to one `Media` entry inside the response-object
construction: keep `optimizedForStreaming` when defined, else set it
to `1`; all other fields are spread through unchanged. -/
def defaultMedia (m : MediaEntry) : MediaEntry :=
  { m with
    optimizedForStreaming :=
      match m.optimizedForStreaming with
      | some v => some v
      | none => some 1 }

/-- The `Media` normalization applied to each item of
`MediaContainer.Metadata` (`plex-mcp-server-ts.ts` lines 150-162, repeated
in the `get-movies` and `search` handlers): map `defaultMedia` over an
existing array, or install the singleton `[{ optimizedForStreaming: 1 }]`
when the item has no `Media` array. -/
def normalizeItemMedia (item : RawItem) : RawItem :=
  match item.Media with
  | some ms => { item with Media := some (ms.map defaultMedia) }
  | none =>
      { item with Media := some [{ optimizedForStreaming := some 1, rest := [] }] }

/-- The `Metadata` list of the handlers' `responseObject`. -/
def responseMetadata (items : List RawItem) : List RawItem :=
  items.map normalizeItemMedia

/-- The `Tag` enum of the upstream SDK
(`@lukehagar/plexjs/sdk/models/operations`), as used by the repository. -/
inductive Tag where
  | Newest
  | RecentlyAdded
  | RecentlyViewed
  | OnDeck
  | Unwatched
  | Collection
deriving DecidableEq, Repr

/-- The string-to-`Tag` conversion chain of the `get-library-contents`
handler (`plex-mcp-server-ts.ts` lines 109-114); the final branch of the
conditional chain falls back to `Tag.Newest`. -/
def tagToEnum (tag : String) : Tag :=
  if tag = "newest" then Tag.Newest
  else if tag = "recentlyAdded" then Tag.RecentlyAdded
  else if tag = "recentlyViewed" then Tag.RecentlyViewed
  else if tag = "onDeck" then Tag.OnDeck
  else if tag = "unwatched" then Tag.Unwatched
  else if tag = "collection" then Tag.Collection
  else Tag.Newest

/-- A tool handler's return value.  The source returns
`{ content: [{ type: "text", text }], isError? }` where `text` is either
the JSON serialization of a structured success payload or a rendered error
message; we keep the success payload structured (`Except.ok`) and keep the
error text (`Except.error`).  `isError` is absent (falsy) on success. -/
structure ToolResponse (α : Type) where
  payload : Except String α
  isError : Bool
deriving Repr

/-- Library projection of the `get-libraries` handler. -/
structure ShapedLibrary where
  id : String
  title : String
  type : String
deriving DecidableEq, Repr

/-- Projection applied to each library by the `get-libraries` handler. -/
def shapeLibrary (lib : Library) : ShapedLibrary :=
  { id := lib.key, title := lib.title, type := lib.type }

/-- The `get-libraries` tool handler, as a function of the result of the
delegated `plexClient.getLibraries()` call (an exception raised by the
client arrives as `Except.error`). -/
def getLibrariesHandler (r : Except String (List Library)) :
    ToolResponse (List ShapedLibrary) :=
  match r with
  | .ok libraries =>
      { payload := .ok (libraries.map shapeLibrary), isError := false }
  | .error e =>
      { payload := .error ("Error getting libraries: " ++ e), isError := true }

/-- The `responseObject.MediaContainer` built by the `get-library-contents`,
`get-movies` and `search` handlers. -/
structure MediaContainerOut where
  content : String
  totalSize : Option Nat := none
  Metadata : List RawItem
deriving DecidableEq, Repr

/-- Success payload of the `get-library-contents` handler:
`{ media, totalSize, object }`. -/
structure LibraryContentsPayload where
  media : List ShapedItem
  totalSize : Nat
  object : MediaContainerOut
deriving DecidableEq, Repr

/-- The `get-library-contents` tool handler after parameter conversion, as
a function of the result of the delegated
`plexClient.getLibraryContents(...)` call. -/
def getLibraryContentsHandler (r : Except String ContentsResult) :
    ToolResponse LibraryContentsPayload :=
  match r with
  | .ok result =>
      { payload := .ok
          { media := result.items.map reshapeItem
            totalSize := result.totalSize
            object :=
              { content := "library items"
                totalSize := some result.totalSize
                Metadata := responseMetadata result.items } }
        isError := false }
  | .error e =>
      { payload := .error ("Error getting library contents: " ++ e)
        isError := true }

/-- The full `get-library-contents` tool: converts the string tag to the
SDK enum with `tagToEnum`, calls the client with the converted parameters,
and reshapes the result.  The client is a parameter so that the tool can be
stated for any upstream behavior. -/
def getLibraryContentsTool
    (client : String → Nat → Tag → Nat → Nat → Except String ContentsResult)
    (libraryId : String) (type : Nat) (tag : String) (start size : Nat) :
    ToolResponse LibraryContentsPayload :=
  getLibraryContentsHandler (client libraryId type (tagToEnum tag) start size)

/-- Movie projection of the `get-movies` handler (unconditional). -/
structure ShapedMovie where
  id : String
  title : String
  year : Option Int
  duration : Option Int
  rating : Option Rat
  summary : Option String
deriving DecidableEq, Repr

/-- Success payload of the `get-movies` handler: `{ movies, object }`. -/
structure MoviesPayload where
  movies : List ShapedMovie
  object : MediaContainerOut
deriving DecidableEq, Repr

/-- The `get-movies` tool handler, as a function of the result of the
delegated `plexClient.getMovies()` call. -/
def getMoviesHandler (r : Except String (List RawItem)) :
    ToolResponse MoviesPayload :=
  match r with
  | .ok movies =>
      { payload := .ok
          { movies := movies.map (fun movie =>
              { id := movie.ratingKey
                title := movie.title
                year := movie.year
                duration := movie.duration
                rating := movie.rating
                summary := movie.summary })
            object :=
              { content := "movies"
                Metadata := responseMetadata movies } }
        isError := false }
  | .error e =>
      { payload := .error ("Error getting movies: " ++ e), isError := true }

/-- Season projection of the `get-seasons` handler. -/
structure ShapedSeason where
  id : String
  title : String
  seasonNumber : Option Int
  episodeCount : Option Int
deriving DecidableEq, Repr

/-- The `get-seasons` tool handler, as a function of the result of the
delegated `plexClient.getSeasons(showId)` call. -/
def getSeasonsHandler (r : Except String (List RawItem)) :
    ToolResponse (List ShapedSeason) :=
  match r with
  | .ok seasons =>
      { payload := .ok (seasons.map (fun season =>
          { id := season.ratingKey
            title := season.title
            seasonNumber := season.index
            episodeCount := season.leafCount }))
        isError := false }
  | .error e =>
      { payload := .error ("Error getting seasons: " ++ e), isError := true }

/-- Episode projection of the `get-episodes` handler. -/
structure ShapedEpisode where
  id : String
  title : String
  seasonNumber : Option Int
  episodeNumber : Option Int
  duration : Option Int
  summary : Option String
deriving DecidableEq, Repr

/-- The `get-episodes` tool handler, as a function of the result of the
delegated `plexClient.getEpisodes(seasonId)` call. -/
def getEpisodesHandler (r : Except String (List RawItem)) :
    ToolResponse (List ShapedEpisode) :=
  match r with
  | .ok episodes =>
      { payload := .ok (episodes.map (fun episode =>
          { id := episode.ratingKey
            title := episode.title
            seasonNumber := episode.parentIndex
            episodeNumber := episode.index
            duration := episode.duration
            summary := episode.summary }))
        isError := false }
  | .error e =>
      { payload := .error ("Error getting episodes: " ++ e), isError := true }

/-- Search-result projection of the `search` handler. -/
structure ShapedSearchResult where
  id : String
  title : String
  type : String
  year : Option Int
deriving DecidableEq, Repr

/-- Success payload of the `search` handler: `{ results, object }`. -/
structure SearchPayload where
  results : List ShapedSearchResult
  object : MediaContainerOut
deriving DecidableEq, Repr

/-- The `search` tool handler.  It validates the query before delegating:
when the query is empty or trims to the empty string it returns the
error response without calling the client, which is therefore passed as a
function and only applied after the guard. -/
def searchHandler (query : String)
    (client : String → Except String (List RawItem)) :
    ToolResponse SearchPayload :=
  if query = "" ∨ query.trim = "" then
    { payload := .error "Error: Search query is required", isError := true }
  else
    match client query with
    | .ok results =>
        { payload := .ok
            { results := results.map (fun item =>
                { id := item.ratingKey
                  title := item.title
                  type := item.type
                  year := item.year })
              object :=
                { content := "search results"
                  Metadata := responseMetadata results } }
          isError := false }
    | .error e =>
        { payload := .error ("Error searching: " ++ e), isError := true }

/-- The `get-watchlist` tool handler, as a function of the result of the
delegated `plexClient.getWatchList(filter)` call.  Its per-item mapping is
the same code as the `get-library-contents` reshaping, embedded once as
`reshapeItem`. -/
def getWatchlistHandler (r : Except String (List RawItem)) :
    ToolResponse (List ShapedItem) :=
  match r with
  | .ok watchlist =>
      { payload := .ok (watchlist.map reshapeItem), isError := false }
  | .error e =>
      { payload := .error ("Error getting watchlist: " ++ e), isError := true }

/-- A Plex device record, with the fields the repository reads. -/
structure Device where
  clientIdentifier : String
  name : String := ""
  product : String := ""
  productVersion : String := ""
  platform : String := ""
  platformVersion : String := ""
  device : String := ""
  model : String := ""
  vendor : String := ""
  provides : List String := []
  owned : Bool := true
  lastSeenAt : Int := 0
  publicAddress : String := ""
deriving DecidableEq, Repr

/-- Device projection of the `get-devices` handler (renames
`clientIdentifier` to `id`). -/
structure ShapedDevice where
  id : String
  name : String
  product : String
  productVersion : String
  platform : String
  platformVersion : String
  device : String
  model : String
  vendor : String
  provides : List String
  owned : Bool
  lastSeenAt : Int
  publicAddress : String
deriving DecidableEq, Repr

/-- The `get-devices` tool handler, as a function of the result of the
delegated `plexClient.getDevices()` call. -/
def getDevicesHandler (r : Except String (List Device)) :
    ToolResponse (List ShapedDevice) :=
  match r with
  | .ok devices =>
      { payload := .ok (devices.map (fun d =>
          { id := d.clientIdentifier
            name := d.name
            product := d.product
            productVersion := d.productVersion
            platform := d.platform
            platformVersion := d.platformVersion
            device := d.device
            model := d.model
            vendor := d.vendor
            provides := d.provides
            owned := d.owned
            lastSeenAt := d.lastSeenAt
            publicAddress := d.publicAddress }))
        isError := false }
  | .error e =>
      { payload := .error ("Error getting devices: " ++ e), isError := true }

/-- The `Promise.all` fan-out of `PlexClient.getMovies`: one
`getLibraryContents` request per movie library, joined into a single
result; the first failing request fails the whole join. -/
def collectContents (contents : String → Except String ContentsResult) :
    List Library → Except String (List ContentsResult)
  | [] => .ok []
  | lib :: rest =>
      match contents lib.key, collectContents contents rest with
      | .error e, _ => .error e
      | .ok _, .error e => .error e
      | .ok r, .ok rs => .ok (r :: rs)

/-- Embeds `PlexClient.getMovies`: list the libraries, keep those with
`type === 'movie'`, return `[]` when there are none, otherwise fetch each
movie library's contents in parallel, flatten the item lists and keep only
the items with `type === 'movie'`.  The two network effects
(`getLibraries`, `getLibraryContents`) are parameters. -/
def getMovies (libsResult : Except String (List Library))
    (contents : String → Except String ContentsResult) :
    Except String (List RawItem) :=
  match libsResult with
  | .error e => .error e
  | .ok libraries =>
      let movieLibraries := libraries.filter (fun lib => lib.type = "movie")
      if movieLibraries.isEmpty then .ok []
      else
        match collectContents contents movieLibraries with
        | .error e => .error e
        | .ok movieResults =>
            .ok (((movieResults.map (·.items)).flatten).filter
              (fun item => item.type = "movie"))

/-- Embeds `PlexClient.playMedia`.  The device list is the result of the
`getDevices()` call; `mediaLookup` gives, for the media id, the
`metadata` array of the `getLibraryItems` response used to check that the
media item exists; `playbackOk` is whether the playback HTTP request
succeeds.  The returned pair is the outcome together with a flag recording
whether the playback request was issued at all. -/
def playMedia (mediaId deviceId : String)
    (devices : List Device)
    (mediaLookup : String → List RawItem)
    (playbackOk : Bool) : Except String Unit × Bool :=
  match devices.find? (fun device => device.clientIdentifier = deviceId) with
  | none => (.error ("Device with ID " ++ deviceId ++ " not found"), false)
  | some _ =>
      match (mediaLookup mediaId).head? with
      | none => (.error ("Media item with ID " ++ mediaId ++ " not found"), false)
      | some _ =>
          if playbackOk then (.ok (), true)
          else (.error "Failed to start playback", true)

/-! Fixture data of `MockPlexClient` (`src/mocks/MockPlexClient.ts`).
Ratings such as `8.7` are embedded as the rational `87/10`. -/

/-- The fixture list of `MockPlexClient.getLibraryContents`. -/
def mockLibraryItems : List RawItem :=
  [ { ratingKey := "101", title := "The Matrix", year := some 1999,
      type := "movie", duration := some 136, rating := some (87/10 : Rat),
      summary := some "A computer hacker learns about the true nature of reality.",
      Media := some [{ optimizedForStreaming := some 1 }] },
    { ratingKey := "102", title := "Inception", year := some 2010,
      type := "movie", duration := some 148, rating := some (88/10 : Rat),
      summary := some "A thief who steals corporate secrets through the use of dream-sharing technology.",
      Media := some [{ optimizedForStreaming := some 1 }] },
    { ratingKey := "103", title := "Breaking Bad", year := some 2008,
      type := "show", childCount := some 5,
      summary := some "A high school chemistry teacher turned methamphetamine manufacturer.",
      Media := some [{ optimizedForStreaming := some 1 }] },
    { ratingKey := "104", title := "The Shawshank Redemption", year := some 1994,
      type := "movie", duration := some 142, rating := some (93/10 : Rat),
      summary := some "Two imprisoned men bond over a number of years, finding solace and eventual redemption through acts of common decency.",
      Media := some [{ optimizedForStreaming := some 1 }] },
    { ratingKey := "105", title := "The Dark Knight", year := some 2008,
      type := "movie", duration := some 152, rating := some (9 : Rat),
      summary := some "When the menace known as the Joker wreaks havoc and chaos on the people of Gotham, Batman must accept one of the greatest psychological and physical tests of his ability to fight injustice.",
      Media := some [{ optimizedForStreaming := some 1 }] },
    { ratingKey := "301", title := "Lethal Weapon", year := some 1987,
      type := "movie", duration := some 110, rating := some (76/10 : Rat),
      summary := some "A veteran cop reluctantly teams with a reckless partner.",
      Media := some [{ optimizedForStreaming := some 1 }] },
    { ratingKey := "302", title := "Lethal Weapon 2", year := some 1989,
      type := "movie", duration := some 114, rating := some (72/10 : Rat),
      summary := some "Riggs and Murtaugh protect a federal witness.",
      Media := some [{ optimizedForStreaming := some 1 }] } ]

/-- Embeds `MockPlexClient.getLibraryContents`: returns the slice
`contents.slice(start, start + size)` of the fixture list together with
`totalSize = contents.length`.  The `libraryId`, `type` and `tag`
parameters are accepted and ignored, as in the source. -/
def mockGetLibraryContents (_libraryId : String) (_type : Nat) (_tag : String)
    (start size : Nat) : ContentsResult :=
  { items := (mockLibraryItems.drop start).take size
    totalSize := mockLibraryItems.length }

/-- The fixture list of `MockPlexClient.getWatchList`. -/
def mockWatchlistItems : List RawItem :=
  [ { ratingKey := "501", title := "Dune", year := some 2021, type := "movie",
      duration := some 155, rating := some (8 : Rat),
      summary := some "A noble family becomes embroiled in a war for control over the most valuable asset in the galaxy." },
    { ratingKey := "502", title := "The Last of Us", year := some 2023,
      type := "show", childCount := some 1,
      summary := some "After a global pandemic destroys civilization, a hardened survivor takes charge of a 14-year-old girl who may be the last hope of humanity." },
    { ratingKey := "503", title := "Oppenheimer", year := some 2023,
      type := "movie", duration := some 180, rating := some (85/10 : Rat),
      summary := some "The story of American scientist J. Robert Oppenheimer and his role in the development of the atomic bomb." } ]

/-- Models `String.prototype.toLowerCase` for the ASCII filter strings the
repository compares (character-wise lower-casing). -/
def toLowerCase (s : String) : String :=
  String.mk (s.data.map Char.toLower)

/-- Embeds `MockPlexClient.getWatchList`: when the (optional) filter
lower-cases to `'available'`, keep only the entries with rating key
`'501'` or `'503'`; otherwise return the full fixture list. -/
def mockGetWatchList (filter : Option String) : List RawItem :=
  if (filter.map toLowerCase) = some "available" then
    mockWatchlistItems.filter
      (fun item => item.ratingKey = "501" ∨ item.ratingKey = "503")
  else
    mockWatchlistItems

/-! The Express HTTP surface (`plex-mcp-server-ts.ts` lines 486-499): a
mutable `sseTransport` reference, initially `null`, set by each
`GET /sse` and read by `POST /messages`. -/

/-- An HTTP request relevant to the SSE transport state: a `GET /sse`
(carrying the identity of the transport it creates) or anything else. -/
inductive ServerRequest where
  | getSse (transport : Nat)
  | other
deriving DecidableEq, Repr

/-- The value of the `sseTransport` reference after a sequence of
requests: initially `null` (`none`); each `GET /sse` replaces it. -/
def sseTransportAfter (requests : List ServerRequest) : Option Nat :=
  requests.foldl
    (fun state r =>
      match r with
      | .getSse t => some t
      | .other => state)
    none

/-- Response of the `POST /messages` handler, with a flag recording
whether the message was handed to `sseTransport.handlePostMessage` (and
hence dispatched towards the tool registry). -/
structure PostMessagesResponse where
  status : Nat
  errorBody : Option String
  dispatched : Bool
deriving DecidableEq, Repr

/-- Embeds the `POST /messages` handler: with no active SSE transport it
answers `400` with the JSON body `{ error: "No active SSE connection" }`
and does not dispatch; otherwise it delegates to the transport
(`handlePostMessage`, abstracted as `dispatch`). -/
def handleMessagesPost (sseTransport : Option Nat)
    (dispatch : Nat → PostMessagesResponse) : PostMessagesResponse :=
  match sseTransport with
  | none =>
      { status := 400, errorBody := some "No active SSE connection",
        dispatched := false }
  | some t => dispatch t

/-- Embeds the result construction of `PlexClient.getLibraryContents`
(`PlexClient.ts`): from the upstream response's
`MediaContainer.Metadata` (possibly absent) and `MediaContainer.totalSize`
(possibly absent), return
`{ items: metadata || [], totalSize: totalSize || items.length }`.
The `||` fallback triggers on every falsy value, so both an absent
upstream `totalSize` and an upstream `totalSize` of `0` are replaced by
`items.length`.  The pagination itself is performed upstream (start/size
are forwarded verbatim in the request URL). -/
def clientGetLibraryContents (metadata : Option (List RawItem))
    (totalSize : Option Nat) : ContentsResult :=
  let items := metadata.getD []
  { items := items
    totalSize :=
      match totalSize with
      | some t => if t = 0 then items.length else t
      | none => items.length }

/-! Theorems settling the claims. -/

/-- C1: the reshaping of a raw item preserves its id (`ratingKey`), title
and year; it carries the movie-specific fields (`duration`, `rating`,
`summary`, copied from the item) exactly when the item's type is
`'movie'`, the show-specific fields (`seasons` from `childCount`, plus
`summary`) exactly when the type is `'show'`, and only the base fields for
any other type. -/
theorem reshapeItem_preserves_and_discriminates (item : RawItem) :
    (reshapeItem item).id = item.ratingKey ∧
    (reshapeItem item).title = item.title ∧
    (reshapeItem item).year = item.year ∧
    ((reshapeItem item).hasMovieFields = true ↔ item.type = "movie") ∧
    ((reshapeItem item).hasShowFields = true ↔ item.type = "show") ∧
    (item.type = "movie" →
      reshapeItem item = .movieInfo item.ratingKey item.title item.year
        item.duration item.rating item.summary) ∧
    (item.type = "show" →
      reshapeItem item = .showInfo item.ratingKey item.title item.year
        item.childCount item.summary) ∧
    (item.type ≠ "movie" → item.type ≠ "show" →
      reshapeItem item = .baseInfo item.ratingKey item.title item.year item.type) := by
  unfold reshapeItem
  by_cases h1 : item.type = "movie" <;> by_cases h2 : item.type = "show" <;>
    simp [h1, h2, ShapedItem.id, ShapedItem.title, ShapedItem.year,
      ShapedItem.hasMovieFields, ShapedItem.hasShowFields]

/-- Closed instance of C1 on a concrete show-typed item. -/
theorem reshapeItem_preserves_witness :
    (reshapeItem { ratingKey := "103", title := "Breaking Bad",
                   year := some 2008, type := "show",
                   childCount := some 5 }).id = "103" :=
  (reshapeItem_preserves_and_discriminates
    { ratingKey := "103", title := "Breaking Bad",
      year := some 2008, type := "show", childCount := some 5 }).1

/-- C2: in the normalized `MediaContainer.Metadata` every item carries a
`Media` array in which every entry has a defined `optimizedForStreaming`
field; for each entry the value is the original one when it was defined
and `1` when it was absent, and all other entry fields pass through
unchanged. -/
theorem responseMetadata_media_defaulted (items : List RawItem) :
    (∀ item ∈ responseMetadata items, ∃ ms, item.Media = some ms ∧
      ∀ e ∈ ms, (e.optimizedForStreaming).isSome = true) ∧
    (∀ item : RawItem, (normalizeItemMedia item).Media =
      some ((item.Media.getD [{ optimizedForStreaming := none, rest := [] }]).map
        defaultMedia)) ∧
    (∀ m : MediaEntry,
      (defaultMedia m).optimizedForStreaming = some (m.optimizedForStreaming.getD 1) ∧
      (defaultMedia m).rest = m.rest) := by
  refine ⟨?_, ?_, ?_⟩
  · intro item hmem
    simp only [responseMetadata, List.mem_map] at hmem
    obtain ⟨raw, _, rfl⟩ := hmem
    cases hM : raw.Media with
    | none =>
        refine ⟨[{ optimizedForStreaming := some 1, rest := [] }],
          by simp [normalizeItemMedia, hM], by simp⟩
    | some ms =>
        refine ⟨ms.map defaultMedia, by simp [normalizeItemMedia, hM], ?_⟩
        intro e he
        simp only [List.mem_map] at he
        obtain ⟨m, _, rfl⟩ := he
        cases h : m.optimizedForStreaming <;> simp [defaultMedia, h]
  · intro item
    cases hM : item.Media <;> simp [normalizeItemMedia, hM, defaultMedia]
  · intro m
    cases h : m.optimizedForStreaming <;> simp [defaultMedia, h]

/-- Closed instance of C2 on a concrete item without a `Media` array. -/
theorem responseMetadata_media_defaulted_witness :
    (defaultMedia { optimizedForStreaming := none, rest := [] }).optimizedForStreaming
      = some 1 :=
  ((responseMetadata_media_defaulted []).2.2
    { optimizedForStreaming := none, rest := [] }).1

/-- C3: the mock client's pagination returns at most `size` items while
`totalSize` is the length of the full fixture list; the real client
passes a nonzero upstream-supplied `totalSize` through unchanged
(pagination itself is forwarded to the upstream API), while the JS `||`
fallback substitutes the page length for a falsy upstream count (absent,
or the value `0`, which only a library with no items reports). -/
theorem getLibraryContents_pagination (libraryId : String) (type : Nat)
    (tag : String) (start size : Nat) :
    (mockGetLibraryContents libraryId type tag start size).items.length ≤ size ∧
    (mockGetLibraryContents libraryId type tag start size).totalSize
      = mockLibraryItems.length ∧
    mockLibraryItems.length = 7 ∧
    (∀ (metadata : List RawItem) (totalSize : Nat), totalSize ≠ 0 →
      clientGetLibraryContents (some metadata) (some totalSize)
        = { items := metadata, totalSize := totalSize }) ∧
    (∀ metadata : List RawItem,
      clientGetLibraryContents (some metadata) (some 0)
        = { items := metadata, totalSize := metadata.length }) ∧
    (∀ metadata : List RawItem,
      clientGetLibraryContents (some metadata) none
        = { items := metadata, totalSize := metadata.length }) := by
  refine ⟨?_, rfl, rfl, ?_, fun _ => rfl, fun _ => rfl⟩
  · simp [mockGetLibraryContents]
  · intro metadata totalSize ht
    simp [clientGetLibraryContents, ht]

/-- Closed instance of C3's pass-through conjunct at the nonzero upstream
count 7. -/
theorem getLibraryContents_pagination_witness :
    clientGetLibraryContents (some mockLibraryItems) (some 7)
      = { items := mockLibraryItems, totalSize := 7 } :=
  (getLibraryContents_pagination "1" 1 "newest" 0 20).2.2.2.1
    mockLibraryItems 7 (by decide)

/-- C4: every tool handler maps a failing delegated client call to an
error-flagged text payload carrying a human-readable message; as total
functions, no handler propagates the failure as an exception. -/
theorem handlers_flag_client_errors (msg : String) :
    getLibrariesHandler (.error msg)
      = ⟨.error ("Error getting libraries: " ++ msg), true⟩ ∧
    getLibraryContentsHandler (.error msg)
      = ⟨.error ("Error getting library contents: " ++ msg), true⟩ ∧
    getMoviesHandler (.error msg)
      = ⟨.error ("Error getting movies: " ++ msg), true⟩ ∧
    getSeasonsHandler (.error msg)
      = ⟨.error ("Error getting seasons: " ++ msg), true⟩ ∧
    getEpisodesHandler (.error msg)
      = ⟨.error ("Error getting episodes: " ++ msg), true⟩ ∧
    (∀ query, (searchHandler query (fun _ => .error msg)).isError = true) ∧
    getWatchlistHandler (.error msg)
      = ⟨.error ("Error getting watchlist: " ++ msg), true⟩ ∧
    getDevicesHandler (.error msg)
      = ⟨.error ("Error getting devices: " ++ msg), true⟩ := by
  refine ⟨rfl, rfl, rfl, rfl, rfl, ?_, rfl, rfl⟩
  intro query
  by_cases hq : query = "" ∨ query.trim = "" <;> simp [searchHandler, hq]

/-- C5: with a query that is empty or only whitespace, the `search`
handler returns the error-flagged "query is required" response, and the
response does not depend on the client, which is therefore never
invoked. -/
theorem searchHandler_blank_query (query : String)
    (h : query = "" ∨ query.trim = "")
    (client : String → Except String (List RawItem)) :
    searchHandler query client
      = { payload := .error "Error: Search query is required", isError := true } := by
  unfold searchHandler
  rw [if_pos h]

/-- Closed instance of C5 on the empty query. -/
theorem searchHandler_blank_query_witness :
    searchHandler "" (fun _ => .ok mockLibraryItems)
      = { payload := .error "Error: Search query is required", isError := true } :=
  searchHandler_blank_query "" (Or.inl rfl) _

/-- C6: a tag outside the enumerated set is mapped to `Tag.Newest` by the
(total, hence non-raising) conversion chain, so the tool behaves exactly
as if the tag were `'newest'`, for every client. -/
theorem unknown_tag_falls_back_to_newest (tag : String)
    (h : tag ∉ ["newest", "recentlyAdded", "recentlyViewed", "onDeck",
      "unwatched", "collection"]) :
    tagToEnum tag = Tag.Newest ∧
    ∀ client libraryId type start size,
      getLibraryContentsTool client libraryId type tag start size
        = getLibraryContentsTool client libraryId type "newest" start size := by
  simp only [List.mem_cons, List.not_mem_nil, or_false, not_or] at h
  obtain ⟨h1, h2, h3, h4, h5, h6⟩ := h
  refine ⟨by simp [tagToEnum, h1, h2, h3, h4, h5, h6], ?_⟩
  intro client libraryId type start size
  simp [getLibraryContentsTool, tagToEnum, h1, h2, h3, h4, h5, h6]

/-- Closed instance of C6 at the unrecognized tag `'popular'`. -/
theorem unknown_tag_falls_back_witness :
    tagToEnum "popular" = Tag.Newest :=
  (unknown_tag_falls_back_to_newest "popular" (by decide)).1

/-- C7: on the mock watchlist the ids returned under filter `'available'`
form a strict subset of the ids returned with no filter, and filter
`'all'` returns the same list as no filter. -/
theorem watchlist_available_strict_subset :
    (∀ id ∈ (mockGetWatchList (some "available")).map RawItem.ratingKey,
      id ∈ (mockGetWatchList none).map RawItem.ratingKey) ∧
    mockGetWatchList (some "all") = mockGetWatchList none ∧
    ∃ id ∈ (mockGetWatchList none).map RawItem.ratingKey,
      id ∉ (mockGetWatchList (some "available")).map RawItem.ratingKey :=
  ⟨by decide, rfl, by decide⟩

/-- C8: when no library has type `'movie'`, `getMovies` succeeds with the
empty list, whatever the per-library fetch would do. -/
theorem getMovies_empty_without_movie_library (libraries : List Library)
    (contents : String → Except String ContentsResult)
    (h : ∀ lib ∈ libraries, lib.type ≠ "movie") :
    getMovies (.ok libraries) contents = .ok [] := by
  have hfilter : libraries.filter (fun lib => lib.type = "movie") = [] := by
    rw [List.filter_eq_nil_iff]
    intro lib hmem
    simp [h lib hmem]
  simp [getMovies, hfilter]

/-- Closed instance of C8 on a library list with only a show library. -/
theorem getMovies_empty_witness :
    getMovies (.ok [{ key := "2", title := "TV Shows", type := "show" }])
      (fun _ => .error "network unavailable") = .ok [] :=
  getMovies_empty_without_movie_library _ _ (by decide)

/-- C9: `playMedia` fails with a NotFound-style error and does not issue
the playback request when the device lookup or the media lookup is empty,
and conversely the playback request is only issued after both lookups
succeeded. -/
theorem playMedia_requires_lookups (mediaId deviceId : String)
    (devices : List Device) (mediaLookup : String → List RawItem)
    (playbackOk : Bool) :
    (devices.find? (fun device => device.clientIdentifier = deviceId) = none →
      playMedia mediaId deviceId devices mediaLookup playbackOk
        = (.error ("Device with ID " ++ deviceId ++ " not found"), false)) ∧
    (∀ d, devices.find? (fun device => device.clientIdentifier = deviceId) = some d →
      mediaLookup mediaId = [] →
      playMedia mediaId deviceId devices mediaLookup playbackOk
        = (.error ("Media item with ID " ++ mediaId ++ " not found"), false)) ∧
    ((playMedia mediaId deviceId devices mediaLookup playbackOk).2 = true →
      (∃ d, devices.find? (fun device => device.clientIdentifier = deviceId) = some d) ∧
      mediaLookup mediaId ≠ []) := by
  refine ⟨?_, ?_, ?_⟩
  · intro hdev
    simp [playMedia, hdev]
  · intro d hdev hmedia
    simp [playMedia, hdev, hmedia]
  · intro hissued
    unfold playMedia at hissued
    cases hdev : devices.find? (fun device => device.clientIdentifier = deviceId) with
    | none => rw [hdev] at hissued; simp at hissued
    | some d =>
        rw [hdev] at hissued
        cases hmedia : (mediaLookup mediaId).head? with
        | none => rw [hmedia] at hissued; simp at hissued
        | some m =>
            refine ⟨⟨d, rfl⟩, ?_⟩
            intro hempty
            rw [hempty] at hmedia
            simp at hmedia

/-- Closed instance of C9 with an empty device list. -/
theorem playMedia_requires_lookups_witness :
    playMedia "101" "mock-iphone-1" [] (fun _ => []) true
      = (.error ("Device with ID " ++ "mock-iphone-1" ++ " not found"), false) :=
  (playMedia_requires_lookups "101" "mock-iphone-1" [] (fun _ => []) true).1 rfl

/-- Helper for C10: a request sequence containing no `GET /sse` leaves the
`sseTransport` reference at its initial `null`. -/
theorem sseTransportAfter_eq_none (requests : List ServerRequest)
    (h : ∀ r ∈ requests, r = ServerRequest.other) :
    sseTransportAfter requests = none := by
  induction requests with
  | nil => rfl
  | cons r rest ih =>
      have hr := h r (List.mem_cons_self r rest)
      have hrest : ∀ x ∈ rest, x = ServerRequest.other :=
        fun x hx => h x (List.mem_cons_of_mem r hx)
      subst hr
      exact ih hrest

/-- C10: a `POST /messages` arriving before any `GET /sse` has opened an
event-stream connection is answered with status 400 and the JSON error
body, and the message is not dispatched to the transport / tool
registry. -/
theorem messages_before_sse_rejected (requests : List ServerRequest)
    (dispatch : Nat → PostMessagesResponse)
    (h : ∀ r ∈ requests, r = ServerRequest.other) :
    handleMessagesPost (sseTransportAfter requests) dispatch
      = { status := 400, errorBody := some "No active SSE connection",
          dispatched := false } := by
  rw [sseTransportAfter_eq_none requests h]
  rfl

/-- Closed instance of C10 on a one-request history without `GET /sse`. -/
theorem messages_before_sse_rejected_witness :
    handleMessagesPost (sseTransportAfter [ServerRequest.other])
      (fun _ => { status := 200, errorBody := none, dispatched := true })
      = { status := 400, errorBody := some "No active SSE connection",
          dispatched := false } :=
  messages_before_sse_rejected [ServerRequest.other] _ (by decide)

end Plex
